import Mathlib

/-!
Verification of the livefb classroom LMS core: row-level-security policy
predicates (src/database/rls_policies.sql, src/database/schema.sql), the
axios refresh interceptor (src/frontend/utils/api.ts), token validation
(src/frontend/utils/auth.ts and the Next.js middleware), and the Facebook
SDK loader (src/frontend/utils/facebook.ts).

Each definition is a shallow embedding of the corresponding source
function; theorems settle the claims of the spec about them.
-/

namespace LiveFB

/-! ## Data model (src/database/schema.sql) -/

abbrev UserId := Nat
abbrev ClassId := Nat
abbrev SessionId := Nat
abbrev QuizId := Nat
abbrev QuestionId := Nat

inductive Role
  | admin
  | student
deriving DecidableEq, Repr

/-- A row of the `users` table. -/
structure UserRow where
  id : UserId
  email : String
  role : Role
  is_active : Bool
deriving DecidableEq, Repr

/-- A row of the `enrollments` table (UNIQUE (student_id, class_id)). -/
structure EnrollmentRow where
  student_id : UserId
  class_id : ClassId
deriving DecidableEq, Repr

/-- A row of the `quiz_answers` table (UNIQUE (student_id, question_id)). -/
structure QuizAnswerRow where
  quiz_id : QuizId
  question_id : QuestionId
  student_id : UserId
  selected_option : String
deriving DecidableEq, Repr

/-- A row of the `qna_sessions` table. -/
structure QnaSessionRow where
  id : SessionId
  class_id : ClassId
deriving DecidableEq, Repr

/-- A row of the `qna_questions` table; `student_id` is nullable
(ON DELETE SET NULL). -/
structure QnaQuestionRow where
  id : Nat
  session_id : SessionId
  student_id : Option UserId
  question_text : String
  is_anonymous : Bool
deriving DecidableEq, Repr

/-- A row of the `ai_recommendations` table (UNIQUE (student_id)). -/
structure AiRecRow where
  student_id : UserId
  recommendations : String
deriving DecidableEq, Repr

/-- The database state visible to the RLS policy predicates. -/
structure DB where
  users : List UserRow
  enrollments : List EnrollmentRow
  quiz_answers : List QuizAnswerRow
  qna_sessions : List QnaSessionRow
  qna_questions : List QnaQuestionRow
  ai_recommendations : List AiRecRow
deriving Repr

/-! ## RLS helper functions (src/database/rls_policies.sql) -/

/-- The helper `is_admin()`: SELECT EXISTS (SELECT 1 FROM users WHERE
id = auth.uid() AND role = admin). Here `uid` plays the part of
`auth.uid()`. -/
def is_admin (db : DB) (uid : UserId) : Bool :=
  db.users.any (fun u => u.id == uid && u.role == Role.admin)

/-- The helper `is_enrolled_in_class(p_class_id)`: SELECT EXISTS (SELECT 1 FROM
enrollments WHERE student_id = auth.uid() AND class_id = p_class_id). -/
def is_enrolled_in_class (db : DB) (uid : UserId) (c : ClassId) : Bool :=
  db.enrollments.any (fun e => e.student_id == uid && e.class_id == c)

/-! ## Quiz-answer policies -/

/-- Policy "quiz_answers: read own or admin":
USING (student_id = auth.uid() OR is_admin()). -/
def quizAnswersSelect (db : DB) (uid : UserId) (row : QuizAnswerRow) : Bool :=
  row.student_id == uid || is_admin db uid

/-- Policy "quiz_answers: insert own": WITH CHECK (student_id = auth.uid()). -/
def quizAnswersInsertCheck (uid : UserId) (row : QuizAnswerRow) : Bool :=
  row.student_id == uid

/-- The CREATE POLICY ... FOR UPDATE statements on quiz_answers in
rls_policies.sql: there are none ("Answers are immutable after submission
(no UPDATE policy)"). -/
def quizAnswersUpdatePolicies : List (DB → UserId → QuizAnswerRow → Bool) := []

/-- RLS semantics for permissive policies: the operation is allowed iff
some policy for that command accepts it; with no policy, default deny. -/
def rlsAllowed (ps : List (DB → UserId → QuizAnswerRow → Bool))
    (db : DB) (uid : UserId) (row : QuizAnswerRow) : Bool :=
  ps.any (fun p => p db uid row)

/-- The schema constraint UNIQUE (student_id, question_id) as a predicate
on the quiz_answers table. -/
def quizAnswersUniqueOk (l : List QuizAnswerRow) : Prop :=
  l.Pairwise (fun a b => ¬(a.student_id = b.student_id ∧ a.question_id = b.question_id))

/-- An INSERT on quiz_answers as the store executes it: the RLS WITH CHECK
must pass and the UNIQUE (student_id, question_id) constraint must not be
violated; otherwise the statement fails and the table is unchanged. -/
def insertQuizAnswer (db : DB) (uid : UserId) (row : QuizAnswerRow) : Option DB :=
  if quizAnswersInsertCheck uid row
      && !(db.quiz_answers.any (fun a =>
            a.student_id == row.student_id && a.question_id == row.question_id)) then
    some { db with quiz_answers := row :: db.quiz_answers }
  else
    none

/-! ## Users policies -/

/-- The first user row with the given id — the value of the subquery
`(SELECT role FROM users WHERE id = auth.uid())` when ids are unique. -/
def roleOf (db : DB) (uid : UserId) : Option Role :=
  (db.users.find? (fun u => u.id == uid)).map (fun u => u.role)

/-- Policy "users: update own (no role escalation)", USING clause:
USING (id = auth.uid()), evaluated on the existing row. -/
def usersUpdateUsing (uid : UserId) (oldRow : UserRow) : Bool :=
  oldRow.id == uid

/-- Policy "users: update own (no role escalation)", WITH CHECK clause:
WITH CHECK (id = auth.uid() AND role = (SELECT role FROM users WHERE
id = auth.uid())), evaluated on the proposed new row; a NULL subquery
result makes the comparison non-TRUE, hence rejected. -/
def usersUpdateCheck (db : DB) (uid : UserId) (newRow : UserRow) : Bool :=
  newRow.id == uid
    && (match roleOf db uid with
        | some r => newRow.role == r
        | none => false)

/-- A self-service UPDATE of a users row is permitted iff both clauses of
the single UPDATE policy on users accept it. -/
def usersUpdateAllowed (db : DB) (uid : UserId) (oldRow newRow : UserRow) : Bool :=
  usersUpdateUsing uid oldRow && usersUpdateCheck db uid newRow

/-- The users PRIMARY KEY: ids are pairwise distinct. -/
def usersIdsUnique (l : List UserRow) : Prop :=
  l.Pairwise (fun a b => a.id ≠ b.id)

theorem mem_eq_of_usersIdsUnique {l : List UserRow} (h : usersIdsUnique l)
    {a b : UserRow} (ha : a ∈ l) (hb : b ∈ l) (hid : a.id = b.id) : a = b := by
  induction l with
  | nil => cases ha
  | cons x xs ih =>
    rcases List.pairwise_cons.mp h with ⟨hx, hxs⟩
    rcases List.mem_cons.mp ha with ha' | ha' <;>
      rcases List.mem_cons.mp hb with hb' | hb'
    · exact ha'.trans hb'.symm
    · exact absurd (ha' ▸ hid) (hx b hb')
    · exact absurd (hb' ▸ hid.symm) (hx a ha')
    · exact ih hxs ha' hb'

/-! ## axios refresh interceptor (src/frontend/utils/api.ts) -/

/-- Does `ts` occur as a contiguous run inside `cs`? -/
def containsSub (cs ts : List Char) : Bool :=
  match cs with
  | [] => ts.isEmpty
  | c :: cs' => ts.isPrefixOf (c :: cs') || containsSub cs' ts

/-- JS `s.includes(t)`: `t` occurs as a substring of `s`. -/
def jsIncludes (s t : String) : Bool :=
  containsSub s.data t.data

/-- The data the response interceptor inspects on a failed request:
`err.response?.status`, `original._retry`, and `original.url`. -/
structure FailedRequest where
  status : Option Nat
  retry : Bool
  url : Option String
deriving DecidableEq, Repr

/-- The guard at the top of the response interceptor:
`err.response?.status !== 401 || original._retry ||
original.url?.includes("/api/auth/refresh")` — when true, the error is
rejected immediately and no refresh is started or awaited. -/
def interceptorRejectsImmediately (r : FailedRequest) : Bool :=
  r.status != some 401 || r.retry
    || (r.url.map (fun u => jsIncludes u "/api/auth/refresh")).getD false

/-- Which axios client a call goes through: the intercepted `api` instance
or a plain `axios` call that the interceptor never sees. -/
inductive HttpClient
  | interceptedApi
  | plainAxios
deriving DecidableEq, Repr

/-- The function `_doRefresh` posts to the refresh endpoint with a plain `axios` call,
"not `api`", "to avoid triggering this interceptor again". -/
def doRefreshClient : HttpClient := HttpClient.plainAxios

/-- The client-side cookie jar holding the two credentials. -/
structure CookieJar where
  access_token : Option String
  refresh_token : Option String
deriving DecidableEq, Repr

/-- The call `Cookies.remove("access_token")`. -/
def removeAccessCookie (j : CookieJar) : CookieJar :=
  { j with access_token := none }

/-- The call `Cookies.remove("refresh_token")`. -/
def removeRefreshCookie (j : CookieJar) : CookieJar :=
  { j with refresh_token := none }

/-- The function `clearTokens` from src/frontend/utils/auth.ts: removes both
cookies. -/
def clearTokens (j : CookieJar) : CookieJar :=
  removeRefreshCookie (removeAccessCookie j)

/-- The success path of `_doRefresh`: `Cookies.set` on both cookies with the
pair returned by the refresh endpoint. -/
def applyRefreshSuccess (acc ref : String) : CookieJar :=
  { access_token := some acc, refresh_token := some ref }

/-- What the interceptor does with a failed request once the shared
refresh has settled. -/
inductive ErrOutcome
  | rejected
  | retriedWith (token : String)
  | redirectLogin
deriving DecidableEq, Repr

/-- The error handler of the response interceptor, as a function of the cookie
jar, the failed request, and the settlement of the shared refresh
(`some (access, refresh)` on success, `none` on failure): guarded requests
are rejected untouched; otherwise success stores the new pair and retries
with the new access token, and failure removes both cookies and redirects
to /login without retrying. -/
def interceptorOnError (jar : CookieJar) (r : FailedRequest)
    (refreshResult : Option (String × String)) : CookieJar × ErrOutcome :=
  if interceptorRejectsImmediately r then
    (jar, ErrOutcome.rejected)
  else
    match refreshResult with
    | some (acc, ref) => (applyRefreshSuccess acc ref, ErrOutcome.retriedWith acc)
    | none => (removeRefreshCookie (removeAccessCookie jar), ErrOutcome.redirectLogin)

/-! ## Single-flight refresh state (`_pendingRefresh`)

JS runs the interceptor body synchronously up to the first `await`, so the
check-and-set on `_pendingRefresh` is atomic; the interleaving of a burst
of 401 failures is a sequence of these atomic steps against one module
state. -/

/-- Module state of api.ts: `_pendingRefresh` (identity of the in-flight
refresh promise, if any), a supply of fresh promise identities, the count
of `_doRefresh` invocations, and which refresh promise each failed request
ended up awaiting. -/
structure CoordState where
  pending : Option Nat
  nextId : Nat
  rotateCalls : Nat
  waiters : List (Nat × Nat)
deriving DecidableEq, Repr

/-- One eligible 401 (guard already passed) reaching the dedup block:
`if (!_pendingRefresh) _pendingRefresh = _doRefresh()...; await
_pendingRefresh`. A fresh refresh is started only when none is pending;
either way the request awaits the pending promise. -/
def handleEligible401 (s : CoordState) (reqId : Nat) : CoordState :=
  match s.pending with
  | some rid => { s with waiters := (reqId, rid) :: s.waiters }
  | none =>
      { pending := some s.nextId
        nextId := s.nextId + 1
        rotateCalls := s.rotateCalls + 1
        waiters := (reqId, s.nextId) :: s.waiters }

/-- The `.finally(() => { _pendingRefresh = null })` on the shared promise:
settlement clears the slot. -/
def settleRefresh (s : CoordState) : CoordState :=
  { s with pending := none }

/-- A burst of eligible 401 failures processed before the in-flight
refresh settles. -/
def handleBurst (s : CoordState) (reqs : List Nat) : CoordState :=
  reqs.foldl handleEligible401 s

theorem handleBurst_inflight (reqs : List Nat) (s : CoordState) (rid : Nat)
    (h : s.pending = some rid) :
    (handleBurst s reqs).pending = some rid
    ∧ (handleBurst s reqs).rotateCalls = s.rotateCalls
    ∧ (∀ w ∈ s.waiters, w ∈ (handleBurst s reqs).waiters)
    ∧ ∀ r ∈ reqs, (r, rid) ∈ (handleBurst s reqs).waiters := by
  induction reqs generalizing s with
  | nil => exact ⟨h, rfl, fun w hw => hw, by simp⟩
  | cons q qs ih =>
    have hfold : handleBurst s (q :: qs) = handleBurst (handleEligible401 s q) qs := rfl
    have hstep : handleEligible401 s q =
        { s with waiters := (q, rid) :: s.waiters } := by
      simp [handleEligible401, h]
    have h' : (handleEligible401 s q).pending = some rid := by
      rw [hstep]; exact h
    obtain ⟨hp, hc, hmono, hall⟩ := ih (handleEligible401 s q) h'
    rw [hfold]
    refine ⟨hp, by rw [hc, hstep], ?_, ?_⟩
    · intro w hw
      exact hmono w (by rw [hstep]; exact List.mem_cons_of_mem _ hw)
    · intro r hr
      rcases List.mem_cons.mp hr with hr | hr
      · subst hr
        exact hmono (r, rid) (by rw [hstep]; exact List.mem_cons_self _ _)
      · exact hall r hr

/-! ## Token validation (src/frontend/utils/auth.ts, middleware in
src/unnamed/part_000) -/

/-- The decoded JWT payload as the client sees it; `exp` is in seconds
and may be absent. -/
structure JwtPayload where
  exp : Option Int
deriving DecidableEq, Repr

/-- A raw bearer token as the middleware inspects it: the number of
dot-separated parts and the payload, `none` when base64/JSON decoding of
the middle part throws. -/
structure RawToken where
  partsCount : Nat
  payload : Option JwtPayload
deriving DecidableEq, Repr

/-- The two error classes the structural check of the middleware distinguishes:
`throw new Error("Malformed token")` for a structurally invalid credential
(wrong part count or undecodable payload) and `throw new Error("Token
expired")` for `!payload.exp || payload.exp * 1000 < Date.now()`. -/
inductive TokenCheckError
  | malformed
  | expired
deriving DecidableEq, Repr

/-- The middleware token check (src/unnamed/part_000 lines 22-33):
parts must number 3, the payload must decode, and then a missing exp, a
zero exp (falsy in JS), or `exp * 1000 < Date.now()` throws "Token
expired". `nowMs` is `Date.now()` in milliseconds. -/
def middlewareTokenCheck (t : RawToken) (nowMs : Int) : Except TokenCheckError Unit :=
  if t.partsCount ≠ 3 then
    Except.error TokenCheckError.malformed
  else
    match t.payload with
    | none => Except.error TokenCheckError.malformed
    | some p =>
      match p.exp with
      | none => Except.error TokenCheckError.expired
      | some e =>
        if e = 0 then Except.error TokenCheckError.expired
        else if e * 1000 < nowMs then Except.error TokenCheckError.expired
        else Except.ok ()

/-- The function `isTokenValid` from auth.ts: false when no access token is stored,
when decoding throws, when `exp` is not a number, or unless
`payload.exp * 1000 > Date.now()`. -/
def isTokenValid (tok : Option RawToken) (nowMs : Int) : Bool :=
  match tok with
  | none => false
  | some t =>
    match t.payload with
    | none => false
    | some p =>
      match p.exp with
      | none => false
      | some e => e * 1000 > nowMs

/-! ## Facebook SDK loader (src/frontend/utils/facebook.ts) -/

/-- Module state of facebook.ts: `_sdkPromise` (identity of the shared
load promise, if created), the app id `FB.init` is or will be called with
(captured by `doInit` when the promise was created), and a supply of fresh
promise identities. -/
structure SdkState where
  sdkPromise : Option Nat
  initAppId : Option String
  nextPromiseId : Nat
deriving DecidableEq, Repr

/-- What a call to `_loadSdk` hands back. -/
inductive LoadResult
  | shared (pid : Nat)
  | rejectedMissingAppId
deriving DecidableEq, Repr

/-- The function `_loadSdk(appId)`: if `_sdkPromise` exists it is returned as-is and
the argument is ignored; an empty app id yields an immediate rejection
without caching; otherwise a new shared promise is created whose `doInit`
closure captures this `appId`. -/
def loadSdk (s : SdkState) (appId : String) : SdkState × LoadResult :=
  match s.sdkPromise with
  | some pid => (s, LoadResult.shared pid)
  | none =>
    if appId = "" then
      (s, LoadResult.rejectedMissingAppId)
    else
      ({ sdkPromise := some s.nextPromiseId
         initAppId := some appId
         nextPromiseId := s.nextPromiseId + 1 },
       LoadResult.shared s.nextPromiseId)

/-- The handler `script.onerror`: the only place that resets
`_sdkPromise = null`. -/
def onSdkScriptError (s : SdkState) : SdkState :=
  { s with sdkPromise := none }

/-- The export `initFacebookLogin()`: `_loadSdk` with the login app id. -/
def initFacebookLogin (loginAppId : String) (s : SdkState) : SdkState × LoadResult :=
  loadSdk s loginAppId

/-- The export `initFacebookLivestream()`: `_loadSdk` with the livestream app id. -/
def initFacebookLivestream (livestreamAppId : String) (s : SdkState) :
    SdkState × LoadResult :=
  loadSdk s livestreamAppId

end LiveFB

namespace LiveFB

/-! ## Claim C1 -/

/-- C1: for distinct students A and B with B not an admin, a read by B of a
quiz answer owned by A is denied by the policy "quiz_answers: read own or admin",
whatever the enrollment state (the policy never consults enrollments). -/
theorem quiz_answer_read_isolated (db : DB) (A B : UserId) (row : QuizAnswerRow)
    (hrow : row.student_id = A) (hne : B ≠ A) (hadm : is_admin db B = false) :
    quizAnswersSelect db B row = false := by
  simp [quizAnswersSelect, hadm, hrow]
  exact fun h => (hne h.symm).elim

/-- Witness for C1 at a concrete state: student 1 reading the answer owned
by student 0, with
B enrolled in the same class as A, is denied. -/
theorem quiz_answer_read_isolated_witness :
    quizAnswersSelect
      { users := [⟨0, "a@x", Role.student, true⟩, ⟨1, "b@x", Role.student, true⟩],
        enrollments := [⟨0, 7⟩, ⟨1, 7⟩],
        quiz_answers := [⟨3, 5, 0, "a"⟩],
        qna_sessions := [], qna_questions := [], ai_recommendations := [] }
      1 ⟨3, 5, 0, "a"⟩ = false := by
  exact quiz_answer_read_isolated _ 0 1 _ rfl (by decide) (by decide)

/-! ## Claim C4 -/

/-- C4: whenever the self-service UPDATE policy on users permits replacing
a stored row `oldRow` by `newRow` (acting as `uid`, with the primary key
holding), the role is unchanged: `newRow.role = oldRow.role`. -/
theorem users_self_update_role_immutable (db : DB) (uid : UserId)
    (oldRow newRow : UserRow) (hmem : oldRow ∈ db.users)
    (huniq : usersIdsUnique db.users)
    (hperm : usersUpdateAllowed db uid oldRow newRow = true) :
    newRow.role = oldRow.role := by
  rcases Bool.and_eq_true_iff.mp hperm with ⟨husing, hcheck⟩
  rcases Bool.and_eq_true_iff.mp hcheck with ⟨_, hrole⟩
  have hid : oldRow.id = uid := by simpa [usersUpdateUsing] using husing
  cases hfind : db.users.find? (fun u => u.id == uid) with
  | none => simp [usersUpdateCheck, roleOf, hfind] at hrole
  | some u =>
    have hu_mem : u ∈ db.users := List.mem_of_find?_eq_some hfind
    have hu_id : u.id = uid := by
      have := List.find?_some hfind
      simpa using this
    have : u = oldRow := mem_eq_of_usersIdsUnique huniq hu_mem hmem (hu_id.trans hid.symm)
    subst this
    simpa [roleOf, hfind] using hrole

/-- Witness for C4: user 0 updating their own row with the role kept. -/
theorem users_self_update_role_immutable_witness :
    usersUpdateAllowed
      { users := [⟨0, "a@x", Role.student, true⟩],
        enrollments := [], quiz_answers := [],
        qna_sessions := [], qna_questions := [], ai_recommendations := [] }
      0 ⟨0, "a@x", Role.student, true⟩ ⟨0, "new@x", Role.student, true⟩ = true
    ∧ (⟨0, "new@x", Role.student, true⟩ : UserRow).role
        = (⟨0, "a@x", Role.student, true⟩ : UserRow).role := by
  refine ⟨by decide, ?_⟩
  exact users_self_update_role_immutable
    { users := [⟨0, "a@x", Role.student, true⟩],
      enrollments := [], quiz_answers := [],
      qna_sessions := [], qna_questions := [], ai_recommendations := [] }
    0 ⟨0, "a@x", Role.student, true⟩ ⟨0, "new@x", Role.student, true⟩
    (by decide) (by simp [usersIdsUnique]) (by decide)

/-! ## Claim C5 -/

/-- C5: quiz answers are unique per (student, question), insertable only as
oneself, and never updatable. (i) A successful insert requires
`row.student_id = uid`; (ii) a successful insert preserves the
UNIQUE (student_id, question_id) invariant; (iii) no actor — admin
included — is permitted an UPDATE, since the policy list for UPDATE on
quiz_answers is empty and RLS default-denies. -/
theorem quiz_answers_unique_insert_self_no_update (db db' : DB) (uid : UserId)
    (row : QuizAnswerRow) (hins : insertQuizAnswer db uid row = some db')
    (hinv : quizAnswersUniqueOk db.quiz_answers) :
    row.student_id = uid
    ∧ quizAnswersUniqueOk db'.quiz_answers
    ∧ ∀ (db₀ : DB) (uid₀ : UserId) (row₀ : QuizAnswerRow),
        rlsAllowed quizAnswersUpdatePolicies db₀ uid₀ row₀ = false := by
  unfold insertQuizAnswer at hins
  split at hins
  case isFalse => exact absurd hins (by simp)
  case isTrue hcond =>
    rcases Bool.and_eq_true_iff.mp hcond with ⟨hself, hfresh⟩
    have hdb' : db' = { db with quiz_answers := row :: db.quiz_answers } := by
      injection hins with h
      exact h.symm
    refine ⟨by simpa [quizAnswersInsertCheck] using hself, ?_, ?_⟩
    · subst hdb'
      refine List.pairwise_cons.mpr ⟨?_, hinv⟩
      intro a ha hcl
      have : db.quiz_answers.any (fun a =>
          a.student_id == row.student_id && a.question_id == row.question_id) = true := by
        refine List.any_eq_true.mpr ⟨a, ha, ?_⟩
        simp [hcl.1, hcl.2]
      simp [this] at hfresh
    · intro db₀ uid₀ row₀
      simp [rlsAllowed, quizAnswersUpdatePolicies]

/-! ## Q&A question read path and AI recommendations -/

/-- Policy "qna_questions: read if enrolled or admin":
USING (is_admin() OR EXISTS (SELECT 1 FROM qna_sessions s WHERE
s.id = qna_questions.session_id AND is_enrolled_in_class(s.class_id))). -/
def qnaQuestionsSelect (db : DB) (uid : UserId) (row : QnaQuestionRow) : Bool :=
  is_admin db uid
    || db.qna_sessions.any (fun s =>
         s.id == row.session_id && is_enrolled_in_class db uid s.class_id)

/-- The shape of a Q&A question as it leaves the API: `student_id = none`
is the masking sentinel. -/
structure QnaQuestionView where
  id : Nat
  student_id : Option UserId
  question_text : String
  is_anonymous : Bool
deriving DecidableEq, Repr

/-- Modelled from the spec: the backend API layer that serves Q&A question
reads is not under src/ (the SQL comments say "anonymous ones have
student_id masked in API" and the spec says the owner identity is
"replaced with a sentinel when is_anonymous=true and actor is not admin").
A read first applies the RLS SELECT policy, then masks `student_id` for
anonymous questions unless the actor is an admin; the stored row itself is
untouched. -/
def readQnaQuestion (db : DB) (uid : UserId) (row : QnaQuestionRow) :
    Option QnaQuestionView :=
  if qnaQuestionsSelect db uid row then
    some { id := row.id
           student_id :=
             if row.is_anonymous && !is_admin db uid then none else row.student_id
           question_text := row.question_text
           is_anonymous := row.is_anonymous }
  else
    none

/-- The frontend rendering of a question author (src/unnamed/part_004,
QnASession): `q.is_anonymous ? "Anonymous" : q.users?.full_name || "Student"`. -/
def displayedAuthor (is_anonymous : Bool) (full_name : Option String) : String :=
  if is_anonymous then "Anonymous" else full_name.getD "Student"

/-- Policy "ai_recommendations: no direct write": WITH CHECK (FALSE). -/
def aiRecommendationsInsertCheck (_db : DB) (_uid : UserId) (_row : AiRecRow) : Bool :=
  false

/-- The schema constraint UNIQUE (student_id) on ai_recommendations. -/
def aiRecsUniqueOk (l : List AiRecRow) : Prop :=
  l.Pairwise (fun a b => a.student_id ≠ b.student_id)

/-- Modelled from the spec: the backend AI-recommendation writer is not
under src/; the spec gives it "system-internal upsert only" semantics
("submitting a second AI-recommendation generation for the same student
replaces rather than duplicates the stored row"), which the schema constraint
UNIQUE (student_id) forces into replace-on-conflict. -/
def upsertAiRecommendation (l : List AiRecRow) (row : AiRecRow) : List AiRecRow :=
  row :: l.filter (fun r => !(r.student_id == row.student_id))

/-! ## Claim C3 -/

/-- C3: for a Q&A question stored with `is_anonymous = true` and owner A,
the stored row keeps A, a successful read by any non-admin yields the
sentinel in place of the owner, and a successful read by an admin yields
the owner. -/
theorem qna_anonymous_redaction (db : DB) (row : QnaQuestionRow) (A : UserId)
    (hanon : row.is_anonymous = true) (howner : row.student_id = some A) :
    row.student_id = some A
    ∧ (∀ uid v, is_admin db uid = false → readQnaQuestion db uid row = some v →
        v.student_id = none)
    ∧ (∀ uid v, is_admin db uid = true → readQnaQuestion db uid row = some v →
        v.student_id = some A) := by
  refine ⟨howner, ?_, ?_⟩
  · intro uid v hadm hread
    unfold readQnaQuestion at hread
    split at hread
    case isFalse => exact absurd hread (by simp)
    case isTrue =>
      injection hread with h
      subst h
      simp [hanon, hadm]
  · intro uid v hadm hread
    unfold readQnaQuestion at hread
    split at hread
    case isFalse => exact absurd hread (by simp)
    case isTrue =>
      injection hread with h
      subst h
      simp [hanon, hadm, howner]

/-- Witness for C3: an anonymous question by student 0 in class 7, read by
enrolled non-admin student 1 (sentinel) and by admin 2 (owner visible). -/
theorem qna_anonymous_redaction_witness :
    readQnaQuestion
      { users := [⟨0, "a@x", Role.student, true⟩, ⟨1, "b@x", Role.student, true⟩,
                  ⟨2, "t@x", Role.admin, true⟩],
        enrollments := [⟨0, 7⟩, ⟨1, 7⟩],
        quiz_answers := [],
        qna_sessions := [⟨9, 7⟩],
        qna_questions := [⟨4, 9, some 0, "why?", true⟩],
        ai_recommendations := [] }
      1 ⟨4, 9, some 0, "why?", true⟩ = some ⟨4, none, "why?", true⟩
    ∧ readQnaQuestion
      { users := [⟨0, "a@x", Role.student, true⟩, ⟨1, "b@x", Role.student, true⟩,
                  ⟨2, "t@x", Role.admin, true⟩],
        enrollments := [⟨0, 7⟩, ⟨1, 7⟩],
        quiz_answers := [],
        qna_sessions := [⟨9, 7⟩],
        qna_questions := [⟨4, 9, some 0, "why?", true⟩],
        ai_recommendations := [] }
      2 ⟨4, 9, some 0, "why?", true⟩ = some ⟨4, some 0, "why?", true⟩ := by
  constructor
  · have h := qna_anonymous_redaction
      { users := [⟨0, "a@x", Role.student, true⟩, ⟨1, "b@x", Role.student, true⟩,
                  ⟨2, "t@x", Role.admin, true⟩],
        enrollments := [⟨0, 7⟩, ⟨1, 7⟩],
        quiz_answers := [],
        qna_sessions := [⟨9, 7⟩],
        qna_questions := [⟨4, 9, some 0, "why?", true⟩],
        ai_recommendations := [] }
      ⟨4, 9, some 0, "why?", true⟩ 0 rfl rfl
    have hv : (⟨4, none, "why?", true⟩ : QnaQuestionView).student_id = none :=
      h.2.1 1 ⟨4, none, "why?", true⟩ (by decide) (by decide)
    decide
  · decide

/-! ## Claim C9 -/

/-- C9: the ai_recommendations table holds at most one row per student
(the upsert preserves UNIQUE (student_id)), a second generation for the
same student replaces the existing row (the new row is present, every old
row for that student is gone), and the client-facing INSERT policy denies
every direct write. -/
theorem ai_recommendations_single_row_upsert (l : List AiRecRow) (row : AiRecRow)
    (hinv : aiRecsUniqueOk l) :
    aiRecsUniqueOk (upsertAiRecommendation l row)
    ∧ row ∈ upsertAiRecommendation l row
    ∧ (∀ r ∈ upsertAiRecommendation l row, r.student_id = row.student_id → r = row)
    ∧ (∀ (db : DB) (uid : UserId) (r : AiRecRow),
        aiRecommendationsInsertCheck db uid r = false) := by
  refine ⟨?_, List.mem_cons_self _ _, ?_, fun db uid r => rfl⟩
  · refine List.pairwise_cons.mpr ⟨?_, hinv.filter _⟩
    intro a ha
    have := List.of_mem_filter ha
    simpa using fun h => by simp [h] at this
  · intro r hr hid
    rcases List.mem_cons.mp hr with h | h
    · exact h
    · have := List.of_mem_filter h
      simp [hid] at this

/-- Witness for C9: regenerating the recommendations of student 3 replaces the
stored row, and a concrete direct client insert is denied. -/
theorem ai_recommendations_single_row_upsert_witness :
    aiRecsUniqueOk (upsertAiRecommendation [⟨3, "old"⟩, ⟨4, "x"⟩] ⟨3, "new"⟩)
    ∧ (⟨3, "new"⟩ : AiRecRow) ∈ upsertAiRecommendation [⟨3, "old"⟩, ⟨4, "x"⟩] ⟨3, "new"⟩
    ∧ aiRecommendationsInsertCheck
        { users := [⟨3, "s@x", Role.student, true⟩], enrollments := [],
          quiz_answers := [], qna_sessions := [], qna_questions := [],
          ai_recommendations := [] }
        3 ⟨3, "mine"⟩ = false := by
  have h := ai_recommendations_single_row_upsert [⟨3, "old"⟩, ⟨4, "x"⟩] ⟨3, "new"⟩
    (by simp [aiRecsUniqueOk])
  exact ⟨h.1, h.2.1, h.2.2.2 _ _ _⟩

/-! ## Claim C2 -/

/-- C2: from an idle state, a burst of eligible 401 failures issues
exactly one `_doRefresh` call and every request in the burst awaits the
same shared pending promise; settlement clears the slot, so the next
failure after settlement starts a fresh refresh; and a burst arriving
while a refresh is already in flight issues no further call and joins the
same promise. -/
theorem refresh_single_flight (s : CoordState) (hidle : s.pending = none)
    (q : Nat) (qs : List Nat) :
    ((handleBurst s (q :: qs)).rotateCalls = s.rotateCalls + 1
      ∧ ∃ rid, (handleBurst s (q :: qs)).pending = some rid
          ∧ ∀ r ∈ q :: qs, (r, rid) ∈ (handleBurst s (q :: qs)).waiters)
    ∧ (settleRefresh (handleBurst s (q :: qs))).pending = none
    ∧ (∀ reqId,
        (handleEligible401 (settleRefresh (handleBurst s (q :: qs))) reqId).rotateCalls
          = (handleBurst s (q :: qs)).rotateCalls + 1)
    ∧ (∀ (s' : CoordState) (rid : Nat) (reqs : List Nat), s'.pending = some rid →
        (handleBurst s' reqs).rotateCalls = s'.rotateCalls
        ∧ ∀ r ∈ reqs, (r, rid) ∈ (handleBurst s' reqs).waiters) := by
  have hstep : handleEligible401 s q =
      { pending := some s.nextId, nextId := s.nextId + 1,
        rotateCalls := s.rotateCalls + 1, waiters := (q, s.nextId) :: s.waiters } := by
    simp [handleEligible401, hidle]
  have hfold : handleBurst s (q :: qs) = handleBurst (handleEligible401 s q) qs := rfl
  have h1 : (handleEligible401 s q).pending = some s.nextId := by rw [hstep]
  obtain ⟨hp, hc, hmono, hall⟩ := handleBurst_inflight qs _ _ h1
  refine ⟨⟨?_, s.nextId, ?_, ?_⟩, ?_, ?_, ?_⟩
  · rw [hfold, hc, hstep]
  · rw [hfold]; exact hp
  · intro r hr
    rcases List.mem_cons.mp hr with hr | hr
    · subst hr
      rw [hfold]
      exact hmono (r, s.nextId) (by rw [hstep]; exact List.mem_cons_self _ _)
    · rw [hfold]; exact hall r hr
  · simp [settleRefresh]
  · intro reqId
    simp [handleEligible401, settleRefresh]
  · intro s' rid reqs hps'
    obtain ⟨_, hc', _, hall'⟩ := handleBurst_inflight reqs s' rid hps'
    exact ⟨hc', hall'⟩

/-- Witness for C2: three concurrent 401-failed requests from an idle
state produce exactly one rotate call and share one promise. -/
theorem refresh_single_flight_witness :
    (handleBurst ⟨none, 0, 0, []⟩ [10, 11, 12]).rotateCalls = 0 + 1
    ∧ ∃ rid, (handleBurst ⟨none, 0, 0, []⟩ [10, 11, 12]).pending = some rid
        ∧ ∀ r ∈ [10, 11, 12], (r, rid) ∈ (handleBurst ⟨none, 0, 0, []⟩ [10, 11, 12]).waiters := by
  exact (refresh_single_flight ⟨none, 0, 0, []⟩ rfl 10 [11, 12]).1

/-! ## Claim C6 -/

/-- C6: a failed request whose URL contains the refresh endpoint is
rejected immediately with the jar untouched (no refresh started or
awaited), a request already retried once is likewise rejected rather than
refreshed again, and `_doRefresh` itself goes through plain axios, outside
the intercepted client. -/
theorem refresh_endpoint_self_exclusion :
    (∀ (jar : CookieJar) (r : FailedRequest) (res : Option (String × String)) (u : String),
        r.url = some u → jsIncludes u "/api/auth/refresh" = true →
        interceptorOnError jar r res = (jar, ErrOutcome.rejected))
    ∧ (∀ (jar : CookieJar) (r : FailedRequest) (res : Option (String × String)),
        r.retry = true → interceptorOnError jar r res = (jar, ErrOutcome.rejected))
    ∧ doRefreshClient = HttpClient.plainAxios := by
  refine ⟨?_, ?_, rfl⟩
  · intro jar r res u hu hinc
    have hrej : interceptorRejectsImmediately r = true := by
      simp [interceptorRejectsImmediately, hu, hinc]
    simp [interceptorOnError, hrej]
  · intro jar r res hretry
    have hrej : interceptorRejectsImmediately r = true := by
      simp [interceptorRejectsImmediately, hretry]
    simp [interceptorOnError, hrej]

/-- Witness for C6: a 401 on the refresh endpoint itself is rejected
untouched even though a successful refresh result is at hand. -/
theorem refresh_endpoint_self_exclusion_witness :
    interceptorOnError ⟨some "a", some "b"⟩
      ⟨some 401, false, some "http://localhost:8000/api/auth/refresh"⟩
      (some ("x", "y"))
      = (⟨some "a", some "b"⟩, ErrOutcome.rejected) := by
  exact refresh_endpoint_self_exclusion.1 _ _ _
    "http://localhost:8000/api/auth/refresh" rfl (by decide)

/-! ## Claim C7 -/

/-- C7: a structurally valid credential whose `exp` (seconds) lies in the
past is classified `expired`, never `malformed`; `malformed` only ever
arises from structural invalidity (wrong part count or undecodable
payload); and `isTokenValid` is false on such a credential. -/
theorem expired_token_classified_expired (t : RawToken) (nowMs : Int)
    (p : JwtPayload) (e : Int)
    (hparts : t.partsCount = 3) (hpayload : t.payload = some p)
    (hexp : p.exp = some e) (hpast : e * 1000 < nowMs) :
    middlewareTokenCheck t nowMs = Except.error TokenCheckError.expired
    ∧ (∀ (t' : RawToken) (now' : Int),
        middlewareTokenCheck t' now' = Except.error TokenCheckError.malformed →
        t'.partsCount ≠ 3 ∨ t'.payload = none)
    ∧ isTokenValid (some t) nowMs = false := by
  refine ⟨?_, ?_, ?_⟩
  · by_cases he : e = 0 <;>
      simp [middlewareTokenCheck, hparts, hpayload, hexp, he, hpast]
  · intro t' now' h
    by_cases h3 : t'.partsCount = 3
    · refine Or.inr ?_
      cases hp' : t'.payload with
      | none => rfl
      | some p' =>
        exfalso
        simp [middlewareTokenCheck, h3, hp'] at h
        cases hpe : p'.exp with
        | none => simp [hpe] at h
        | some e' =>
          simp [hpe] at h
          by_cases he : e' = 0
          · simp [he] at h
          · by_cases hlt : e' * 1000 < now'
            · simp [he, hlt] at h
            · simp [he, hlt] at h
    · exact Or.inl h3
  · simp [isTokenValid, hpayload, hexp]
    omega

/-- Witness for C7: a three-part token with exp = 1 second checked at
5000 ms is expired, not malformed, and not valid. -/
theorem expired_token_classified_expired_witness :
    middlewareTokenCheck ⟨3, some ⟨some 1⟩⟩ 5000 = Except.error TokenCheckError.expired
    ∧ isTokenValid (some ⟨3, some ⟨some 1⟩⟩) 5000 = false := by
  have h := expired_token_classified_expired ⟨3, some ⟨some 1⟩⟩ 5000 ⟨some 1⟩ 1
    rfl rfl rfl (by decide)
  exact ⟨h.1, h.2.2⟩

/-! ## Claim C8 -/

/-- C8: when the shared refresh settles with failure, every request the
interceptor handled gets both cookies removed together and is sent to
/login rather than retried; `clearTokens` likewise removes both cookies
together. -/
theorem refresh_failure_clears_both (jar : CookieJar) (r : FailedRequest)
    (helig : interceptorRejectsImmediately r = false) :
    interceptorOnError jar r none = (⟨none, none⟩, ErrOutcome.redirectLogin)
    ∧ clearTokens jar = ⟨none, none⟩ := by
  constructor
  · simp [interceptorOnError, helig, removeAccessCookie, removeRefreshCookie]
  · cases jar
    rfl

/-- Witness for C8: a plain 401 whose refresh fails loses both cookies and
redirects. -/
theorem refresh_failure_clears_both_witness :
    interceptorOnError ⟨some "a", some "b"⟩ ⟨some 401, false, some "/api/classes/"⟩ none
      = (⟨none, none⟩, ErrOutcome.redirectLogin)
    ∧ clearTokens ⟨some "a", some "b"⟩ = ⟨none, none⟩ := by
  exact refresh_failure_clears_both ⟨some "a", some "b"⟩
    ⟨some 401, false, some "/api/classes/"⟩ (by decide)

/-! ## Claim C10 -/

/-- C10: once `_loadSdk` has created its shared promise, every later call
returns that same promise with the state (and so the app id `FB.init`
received) unchanged, whatever app id is passed; in particular
`initFacebookLivestream` after `initFacebookLogin` resolves to the login
load and the SDK keeps the login app id; the shared promise is cleared
only by the script error handler. -/
theorem sdk_loader_ignores_second_app_id :
    (∀ (s : SdkState) (pid : Nat), s.sdkPromise = some pid →
        ∀ appId, loadSdk s appId = (s, LoadResult.shared pid))
    ∧ (∀ (s : SdkState) (loginId liveId : String) (s₁ : SdkState) (r₁ : LoadResult),
        s.sdkPromise = none → loginId ≠ "" →
        initFacebookLogin loginId s = (s₁, r₁) →
        initFacebookLivestream liveId s₁ = (s₁, r₁) ∧ s₁.initAppId = some loginId)
    ∧ (∀ s : SdkState, (onSdkScriptError s).sdkPromise = none) := by
  refine ⟨?_, ?_, fun s => rfl⟩
  · intro s pid hp appId
    simp [loadSdk, hp]
  · intro s loginId liveId s₁ r₁ hidle hne hcall
    unfold initFacebookLogin at hcall
    have hload : loadSdk s loginId =
        ({ sdkPromise := some s.nextPromiseId, initAppId := some loginId,
           nextPromiseId := s.nextPromiseId + 1 }, LoadResult.shared s.nextPromiseId) := by
      simp [loadSdk, hidle, hne]
    rw [hload] at hcall
    injection hcall with h1 h2
    subst h1
    subst h2
    constructor
    · simp [initFacebookLivestream, loadSdk]
    · rfl

/-- Witness for C10: initializing for login with app "L" and then for
livestream with app "V" returns the same promise and keeps app "L". -/
theorem sdk_loader_ignores_second_app_id_witness :
    initFacebookLivestream "V" ⟨some 0, some "L", 1⟩
      = (⟨some 0, some "L", 1⟩, LoadResult.shared 0)
    ∧ (⟨some 0, some "L", 1⟩ : SdkState).initAppId = some "L" := by
  exact sdk_loader_ignores_second_app_id.2.1 ⟨none, none, 0⟩ "L" "V"
    ⟨some 0, some "L", 1⟩ (LoadResult.shared 0) rfl (by decide) rfl

/-- Witness for C5: a concrete successful insert of an own answer into
an empty, trivially unique table, and the denial of a concrete update
attempt by an admin. -/
theorem quiz_answers_unique_insert_self_no_update_witness :
    (⟨3, 5, 2, "a"⟩ : QuizAnswerRow).student_id = 2
    ∧ quizAnswersUniqueOk [⟨3, 5, 2, "a"⟩]
    ∧ rlsAllowed quizAnswersUpdatePolicies
        { users := [⟨9, "t@x", Role.admin, true⟩], enrollments := [],
          quiz_answers := [⟨3, 5, 2, "a"⟩],
          qna_sessions := [], qna_questions := [], ai_recommendations := [] }
        9 ⟨3, 5, 2, "b"⟩ = false := by
  have h := quiz_answers_unique_insert_self_no_update
    { users := [], enrollments := [], quiz_answers := [],
      qna_sessions := [], qna_questions := [], ai_recommendations := [] }
    { users := [], enrollments := [], quiz_answers := [⟨3, 5, 2, "a"⟩],
      qna_sessions := [], qna_questions := [], ai_recommendations := [] }
    2 ⟨3, 5, 2, "a"⟩ rfl (by simp [quizAnswersUniqueOk])
  exact ⟨h.1, h.2.1, h.2.2 _ _ _⟩

end LiveFB
